import Mathlib

set_option autoImplicit false

/-!
Shallow embedding of the pymaid RPC channel core (src/pymaid/channel.py and
src/pymaid/agent.py).

Modelling conventions:
* Python dicts are association lists `List (κ × α)` with `mlookup` / `merase`;
  the well-formedness of a dict (distinct keys) is the predicate `NodupKeys`.
* Python sets (a connection's outstanding `transmissions`) are `List Nat`,
  `setAdd` / removal by `List.filter` give set semantics.
* Wall-clock times and heartbeat intervals are exact rationals `ℚ`; the float
  literals of the source (`1.1`, `.3`, `.64`, `.89`) are embedded as the exact
  decimal rationals they denote.
* A Python `assert` failure (an exception aborting the operation) is modelled
  as `Except.error (PyError.assertionError msg)`.  Inside the per-connection
  receive loop (`Channel._handle_loop`, channel.py lines 241-262) such an
  exception terminates the loop and closes the connection.
* Observable side effects (socket sends, resolving an `AsyncResult` with a
  value or an exception, invoking a heartbeat handler) are captured as an
  `Event` trace returned next to the new state.
* The construction of a `Connection` from a raw socket, the spawning of its
  receive loop greenlet and the heartbeat setup live in `pymaid/connection.py`;
  here a `Connection` is a record of the fields `channel.py` reads and writes,
  and `conn.heartbeat_timeout()` / `conn.notify_heartbeat()` are represented
  by the events they raise.
* The protobuf serialization layer is an external collaborator: decoding an
  expected response type is the stored `RespClass.decode` function (returning
  `none` on a `DecodeError`), and decoding an `ErrorMessage` plus the
  process-wide error-code registry `BaseMeta.get_by_code` are parameters of
  `recvResponse`.
-/

namespace Pymaid

/-- Opaque serialized payload bytes. -/
abbrev Bytes := List Nat

/-- Lookup in an association list (first entry with the given key), the
embedding of a Python dict read. -/
def mlookup {κ α : Type} [DecidableEq κ] : List (κ × α) → κ → Option α
  | [], _ => none
  | (k, v) :: rest, key => if k = key then some v else mlookup rest key

/-- Remove the first entry with the given key, the embedding of `del d[k]` /
`d.pop(k)` on a well-formed dict. -/
def merase {κ α : Type} [DecidableEq κ] : List (κ × α) → κ → List (κ × α)
  | [], _ => []
  | (k, v) :: rest, key => if k = key then rest else (k, v) :: merase rest key

/-- Well-formedness of an association list as a dict: all keys distinct. -/
def NodupKeys {κ α : Type} (m : List (κ × α)) : Prop := (m.map Prod.fst).Nodup

/-- Insertion into a Python set kept as a list. -/
def setAdd (s : List Nat) (x : Nat) : List Nat := if x ∈ s then s else x :: s

/-- The wire envelope `MetaData` (pymaid/pb), restricted to the fields
`channel.py` reads and writes. -/
structure MetaData where
  from_stub : Bool := false
  service_name : String := ""
  method_name : String := ""
  transmission_id : Nat := 0
  message : Bytes := []
deriving DecidableEq

/-- A connection, restricted to the fields `channel.py` reads and writes
(the socket itself, framing, and the close callback live in connection.py). -/
structure Connection where
  conn_id : Nat
  server_side : Bool
  transmissions : List Nat := []
  last_check_heartbeat : ℚ := 0
  heartbeat_interval : ℚ := 0
  need_heartbeat : Bool := false
deriving DecidableEq

/-- An expected-response type: whether it is the `Void` marker (no response
required) and its deserializer (`ParseFromString`; `none` models a
`DecodeError`, the decoded value is abstracted as a `Nat`). -/
structure RespClass where
  isVoid : Bool
  decode : Bytes → Option Nat

/-- A registered service, restricted to its registration key
(`service.DESCRIPTOR.full_name`). -/
structure Service where
  full_name : String
deriving DecidableEq

/-- A reconstructed exception delivered to a pending `AsyncResult`. -/
inductive RpcException where
  /-- An error reconstructed through `BaseMeta.get_by_code`: the error kind
  returned by the registry and the decoded error message. -/
  | reconstructed (kind : Nat) (msg : Bytes)
  /-- A `DecodeError` raised while parsing the expected response type. -/
  | decodeFailure
  /-- The close reason passed to `connection_closed` (possibly `None`). -/
  | closeReason (r : Option Nat)
deriving DecidableEq

/-- An observable side effect of a channel operation. -/
inductive Event where
  /-- `conn.send(packet)` on the connection with this id. -/
  | send (conn_id : Nat) (packet : MetaData)
  /-- `async_result.set_exception(e)` for the call with this transmission id. -/
  | setException (tid : Nat) (e : RpcException)
  /-- `async_result.set(v)` for the call with this transmission id. -/
  | setValue (tid : Nat) (v : Nat)
  /-- `conn.heartbeat_timeout()` invoked on this connection. -/
  | heartbeatTimeout (conn_id : Nat)
  /-- `conn.notify_heartbeat()` invoked on this connection. -/
  | notifyHeartbeat (conn_id : Nat)
deriving DecidableEq

/-- A Python exception aborting an operation (here always an `assert`). -/
inductive PyError where
  | assertionError (msg : String)
deriving DecidableEq

/-- The per-call execution context, restricted to the fields `channel.py`
reads (controller.py is not embedded: it only stores these fields). -/
structure Controller where
  meta_data : MetaData
  wide : Bool := false
  group : Option (List Nat) := none
  conn : Connection
  failed : Bool := false

/-- The channel state: correlation counter, pending-result table, the two
connection maps, the service registry and heartbeat configuration
(`Channel.__init__`, channel.py lines 35-52). The pending table maps a
transmission id to the expected response class of its `AsyncResult`. -/
structure Channel where
  transmission_id : Nat := 1
  pending_results : List (Nat × RespClass) := []
  income_connections : List (Nat × Connection) := []
  outcome_connections : List (Nat × Connection) := []
  services : List (String × Service) := []
  need_heartbeat : Bool := false
  heartbeat_interval : ℚ := 0
  max_heartbeat_timeout_count : Nat := 0

/-- `Channel.MAX_ACCEPT` (channel.py line 32). -/
def MAX_ACCEPT : Nat := 1024

/-- `Channel.MAX_CONCURRENCY` (channel.py line 33). -/
def MAX_CONCURRENCY : Nat := 50000

/-- `Channel.is_full` (channel.py lines 169-171): income connections only. -/
def is_full (ch : Channel) : Bool :=
  decide (ch.income_connections.length ≥ MAX_CONCURRENCY)

/-- `Channel.size` (channel.py lines 173-175). -/
def size (ch : Channel) : Nat :=
  ch.income_connections.length + ch.outcome_connections.length

/-- Truthiness of the Python `group` value (`None` or a list of conn ids):
falsy when `None` or empty. -/
def groupTruthy : Option (List Nat) → Bool
  | none => false
  | some l => !l.isEmpty

/-- The addressing step of `Channel.CallMethod` (channel.py lines 69-83):
broadcast to every income connection when `controller.wide`, multicast to the
listed income connections (missing ids skipped) when `controller.group` is
truthy, else unicast to `controller.conn`. -/
def addressingEvents (ch : Channel) (ctrl : Controller) (packet : MetaData) :
    List Event :=
  if ctrl.wide then
    ch.income_connections.map (fun p => Event.send p.1 packet)
  else if groupTruthy ctrl.group then
    (ctrl.group.getD []).filterMap (fun cid =>
      (mlookup ch.income_connections cid).map (fun c => Event.send c.conn_id packet))
  else
    [Event.send ctrl.conn.conn_id packet]

/-- `Channel.CallMethod` (channel.py lines 54-92). The request payload is
`none` for the `Void` request marker (in which case `meta_data.message` is
left as it was). On success, returns the new channel state, the updated
`controller.conn`, the send events, and the allocated transmission id when a
response is required. On an `assert` failure, returns the error with the send
events already emitted before the failing assert (the two addressing asserts
at lines 71 and 76 fire before any send; the pending-table assert at line 88
fires after the unicast send). -/
def callMethod (ch : Channel) (service_name method_name : String)
    (ctrl : Controller) (request : Option Bytes) (response_class : RespClass) :
    Except (PyError × List Event) (Channel × Connection × List Event × Option Nat) :=
  let md1 : MetaData :=
    { ctrl.meta_data with
      from_stub := true
      service_name := service_name
      method_name := method_name
      message := request.getD ctrl.meta_data.message }
  let require_response := !response_class.isVoid
  let tid := ch.transmission_id
  let ch1 := if require_response then { ch with transmission_id := tid + 1 } else ch
  let md2 := if require_response then { md1 with transmission_id := tid } else md1
  if (ctrl.wide || groupTruthy ctrl.group) && require_response then
    Except.error (PyError.assertionError "broadcast requires no response", [])
  else
    let events := addressingEvents ch1 ctrl md2
    if require_response then
      if (mlookup ch1.pending_results tid).isSome then
        Except.error (PyError.assertionError "transmission_id already pending", events)
      else
        Except.ok
          ({ ch1 with pending_results := (tid, response_class) :: ch1.pending_results },
           { ctrl.conn with transmissions := setAdd ctrl.conn.transmissions tid },
           events, some tid)
    else
      Except.ok (ch1, ctrl.conn, events, none)

/-- `Channel.append_service` (channel.py lines 94-96). -/
def appendService (ch : Channel) (service : Service) : Except PyError Channel :=
  if (mlookup ch.services service.full_name).isSome then
    Except.error (PyError.assertionError "service already registered")
  else
    Except.ok { ch with services := (service.full_name, service) :: ch.services }

/-- The registration step of `Channel.new_connection` (channel.py lines
142-148); the `Connection` construction, loop spawning and heartbeat setup of
lines 135-140 live in connection.py and do not touch the channel maps. -/
def newConnection (ch : Channel) (conn : Connection) : Except PyError Channel :=
  if conn.server_side then
    if (mlookup ch.income_connections conn.conn_id).isSome then
      Except.error (PyError.assertionError "conn_id already in income_connections")
    else
      Except.ok { ch with income_connections := (conn.conn_id, conn) :: ch.income_connections }
  else
    if (mlookup ch.outcome_connections conn.conn_id).isSome then
      Except.error (PyError.assertionError "conn_id already in outcome_connections")
    else
      Except.ok { ch with outcome_connections := (conn.conn_id, conn) :: ch.outcome_connections }

/-- The cleanup loop of `Channel.connection_closed` (channel.py lines
158-163): for each outstanding transmission id, `pending_results.pop(tid,
(None, None))` with a default — an id absent from the table is silently
skipped — and `set_exception(reason)` on each `AsyncResult` found. -/
def failPending (reason : Option Nat) :
    List Nat → List (Nat × RespClass) → List (Nat × RespClass) × List Event
  | [], table => (table, [])
  | tid :: rest, table =>
    match mlookup table tid with
    | some _ =>
      let out := failPending reason rest (merase table tid)
      (out.1, Event.setException tid (RpcException.closeReason reason) :: out.2)
    | none => failPending reason rest table

/-- `Channel.connection_closed` (channel.py lines 150-164): remove the
connection from the map matching its side (a missing entry is an `assert`
failure), fail every outstanding pending result with the close reason, and
clear the outstanding set. -/
def connectionClosed (ch : Channel) (conn : Connection) (reason : Option Nat) :
    Except PyError (Channel × Connection × List Event) :=
  if conn.server_side then
    if (mlookup ch.income_connections conn.conn_id).isSome then
      let ch1 := { ch with income_connections := merase ch.income_connections conn.conn_id }
      let out := failPending reason conn.transmissions ch1.pending_results
      Except.ok ({ ch1 with pending_results := out.1 },
                 { conn with transmissions := [] }, out.2)
    else
      Except.error (PyError.assertionError "conn_id not in income_connections")
  else
    if (mlookup ch.outcome_connections conn.conn_id).isSome then
      let ch1 := { ch with outcome_connections := merase ch.outcome_connections conn.conn_id }
      let out := failPending reason conn.transmissions ch1.pending_results
      Except.ok ({ ch1 with pending_results := out.1 },
                 { conn with transmissions := [] }, out.2)
    else
      Except.error (PyError.assertionError "conn_id not in outcome_connections")

/-- The decoded `ErrorMessage` payload (pymaid/pb). -/
structure ErrorMessage where
  error_code : Nat
  error_message : Bytes
deriving DecidableEq

/-- `Channel._recv_response` (channel.py lines 282-305). `get_by_code` is the
process-wide error registry `BaseMeta.get_by_code` and `parseErrorMessage` the
`ErrorMessage` deserializer, both external collaborators. The controller's
connection is `ctrl.conn`; the updated connection is returned next to the new
channel state. An `assert` failure terminates the receive loop. -/
def recvResponse (get_by_code : Nat → Nat) (parseErrorMessage : Bytes → ErrorMessage)
    (ch : Channel) (ctrl : Controller) :
    Except PyError (Channel × Connection × List Event) :=
  let tid := ctrl.meta_data.transmission_id
  match mlookup ch.pending_results tid with
  | none => Except.error (PyError.assertionError "transmission_id not pending")
  | some response_class =>
    if tid ∈ ctrl.conn.transmissions then
      let ch1 := { ch with pending_results := merase ch.pending_results tid }
      let conn1 := { ctrl.conn with transmissions := ctrl.conn.transmissions.filter (· ≠ tid) }
      if ctrl.failed then
        let em := parseErrorMessage ctrl.meta_data.message
        Except.ok (ch1, conn1,
          [Event.setException tid (RpcException.reconstructed (get_by_code em.error_code) em.error_message)])
      else
        match response_class.decode ctrl.meta_data.message with
        | none => Except.ok (ch1, conn1, [Event.setException tid RpcException.decodeFailure])
        | some v => Except.ok (ch1, conn1, [Event.setValue tid v])
    else
      Except.error (PyError.assertionError "transmission_id not in connection transmissions")

/-- The shared sweep shape of the two heartbeat timers: for each connection
of a map, when `cond` holds mark `last_check_heartbeat := now` and emit the
handler event `mk conn_id`, else leave the connection unchanged. -/
def heartbeatSweep (cond : Connection → Bool) (now : ℚ) (mk : Nat → Event) :
    List (Nat × Connection) → List (Nat × Connection) × List Event
  | [] => ([], [])
  | (cid, c) :: rest =>
    let out := heartbeatSweep cond now mk rest
    if cond c then
      ((cid, { c with last_check_heartbeat := now }) :: out.1, mk cid :: out.2)
    else
      ((cid, c) :: out.1, out.2)

/-- The liveness-detection condition of `Channel._server_heartbeat`
(channel.py lines 192, 197): elapsed since the connection's last check is at
least the channel's `heartbeat_interval * 1.1 + 0.3`. -/
def serverTimedOut (ch : Channel) (now : ℚ) (c : Connection) : Bool :=
  decide (now - c.last_check_heartbeat ≥ ch.heartbeat_interval * 1.1 + 0.3)

/-- `Channel._server_heartbeat` (channel.py lines 190-201): sweep the income
connections; a timed-out connection gets `last_check_heartbeat := now` and its
`heartbeat_timeout()` handler invoked (the handler body lives in
connection.py and is represented by the emitted event). -/
def serverHeartbeat (ch : Channel) (now : ℚ) : Channel × List Event :=
  let out := heartbeatSweep (serverTimedOut ch now) now Event.heartbeatTimeout
    ch.income_connections
  ({ ch with income_connections := out.1 }, out.2)

/-- The load-adaptive factor of `Channel._peer_heartbeat` (channel.py line
206): the Python idiom `self.size >= 14142 and .64 or .89`. -/
def peerFactor (ch : Channel) : ℚ :=
  if size ch ≥ 14142 then 0.64 else 0.89

/-- The keep-alive condition of `Channel._peer_heartbeat` (channel.py lines
209-211): heartbeat enabled on the connection and elapsed since its last
check at least the connection's own `heartbeat_interval * factor`. -/
def peerDue (ch : Channel) (now : ℚ) (c : Connection) : Bool :=
  c.need_heartbeat &&
    decide (now - c.last_check_heartbeat ≥ c.heartbeat_interval * peerFactor ch)

/-- `Channel._peer_heartbeat` (channel.py lines 203-215): sweep the outcome
connections; a due connection gets `last_check_heartbeat := now` and its
`notify_heartbeat()` packet sent (represented by the emitted event). -/
def peerHeartbeat (ch : Channel) (now : ℚ) : Channel × List Event :=
  let out := heartbeatSweep (peerDue ch now) now Event.notifyHeartbeat
    ch.outcome_connections
  ({ ch with outcome_connections := out.1 }, out.2)

/-- A freshly accepted server-side connection wrapping a socket: `conn_id` is
the id the `Connection` constructor (connection.py, not embedded) would
assign; the remaining fields are the pre-heartbeat-setup defaults and play no
role in the accept-loop properties. -/
def connFromSock (cid : Nat) : Connection :=
  { conn_id := cid, server_side := true }

/-- The accept loop of `Channel._do_accept` (channel.py lines 217-228) with
the per-wakeup budget as fuel and the queue of acceptable sockets (each
reduced to the conn_id its `Connection` would get) as a list; an empty queue
is `EWOULDBLOCK`. Returns the new channel state and how many connections were
accepted; a `new_connection` assert failure propagates. -/
def doAcceptAux : Nat → Channel → List Nat → Except PyError (Channel × Nat)
  | 0, ch, _ => Except.ok (ch, 0)
  | Nat.succ fuel, ch, socks =>
    if is_full ch then Except.ok (ch, 0)
    else
      match socks with
      | [] => Except.ok (ch, 0)
      | cid :: rest =>
        match newConnection ch (connFromSock cid) with
        | Except.error e => Except.error e
        | Except.ok ch1 =>
          match doAcceptAux fuel ch1 rest with
          | Except.error e => Except.error e
          | Except.ok out => Except.ok (out.1, out.2 + 1)

/-- `Channel._do_accept` (channel.py lines 217-228): one wakeup of the accept
watcher, accepting at most `MAX_ACCEPT` connections. -/
def doAccept (ch : Channel) (socks : List Nat) : Except PyError (Channel × Nat) :=
  doAcceptAux MAX_ACCEPT ch socks

/-- The addressing mode a call ends up with: exactly one of unicast,
broadcast, or explicit id-list. -/
inductive AddressingMode where
  | unicast (conn : Connection)
  | wide
  | group (ids : List Nat)
deriving DecidableEq

/-- The addressing-mode selection of the generated rpc wrapper
(`ServiceAgent.__getattr__`, agent.py lines 36-44): `assert conn or wide or
group`, then `if conn: ... elif wide: ... else: assert isinstance(group,
(tuple, list)); ...`. -/
def rpcSelectMode (conn : Option Connection) (wide : Bool)
    (group : Option (List Nat)) : Except PyError AddressingMode :=
  if conn.isSome || wide || groupTruthy group then
    match conn with
    | some c => Except.ok (AddressingMode.unicast c)
    | none =>
      if wide then Except.ok AddressingMode.wide
      else
        match group with
        | some ids => Except.ok (AddressingMode.group ids)
        | none => Except.error (PyError.assertionError "group should be a list of conn id")
  else
    Except.error (PyError.assertionError "must specified one way to go")

/-! Helper lemmas about the dict embedding. -/

@[simp]
theorem mlookup_nil {κ α : Type} [DecidableEq κ] (key : κ) :
    mlookup ([] : List (κ × α)) key = none := rfl

@[simp]
theorem mlookup_cons {κ α : Type} [DecidableEq κ] (a : κ) (b : α)
    (rest : List (κ × α)) (key : κ) :
    mlookup ((a, b) :: rest) key = if a = key then some b else mlookup rest key := rfl

@[simp]
theorem merase_nil {κ α : Type} [DecidableEq κ] (key : κ) :
    merase ([] : List (κ × α)) key = [] := rfl

@[simp]
theorem merase_cons {κ α : Type} [DecidableEq κ] (a : κ) (b : α)
    (rest : List (κ × α)) (key : κ) :
    merase ((a, b) :: rest) key =
      if a = key then rest else (a, b) :: merase rest key := rfl

theorem mlookup_isSome_of_mem {κ α : Type} [DecidableEq κ] {m : List (κ × α)}
    {k : κ} {v : α} (h : (k, v) ∈ m) : (mlookup m k).isSome = true := by
  induction m with
  | nil => cases h
  | cons p rest ih =>
    obtain ⟨a, b⟩ := p
    rcases List.mem_cons.mp h with h1 | h1
    · cases h1; simp
    · by_cases hk : a = k <;> simp [hk, ih h1]

theorem mlookup_eq_some_of_mem {κ α : Type} [DecidableEq κ] {m : List (κ × α)}
    {k : κ} {v : α} (hnd : NodupKeys m) (h : (k, v) ∈ m) : mlookup m k = some v := by
  induction m with
  | nil => cases h
  | cons p rest ih =>
    obtain ⟨a, b⟩ := p
    simp only [NodupKeys, List.map_cons, List.nodup_cons] at hnd
    rcases List.mem_cons.mp h with h1 | h1
    · cases h1; simp
    · have hak : a ≠ k := by
        intro hak
        exact hnd.1 (hak ▸ List.mem_map.mpr ⟨(k, v), h1, rfl⟩)
      simp [hak, ih hnd.2 h1]

theorem mem_eq_of_nodupKeys {κ α : Type} {m : List (κ × α)} {k : κ} {v v' : α}
    (hnd : NodupKeys m) (h : (k, v) ∈ m) (h' : (k, v') ∈ m) : v = v' := by
  induction m with
  | nil => cases h
  | cons p rest ih =>
    obtain ⟨a, b⟩ := p
    simp only [NodupKeys, List.map_cons, List.nodup_cons] at hnd
    rcases List.mem_cons.mp h with h1 | h1 <;> rcases List.mem_cons.mp h' with h2 | h2
    · cases h1; cases h2; rfl
    · cases h1; exact absurd (List.mem_map.mpr ⟨(k, v'), h2, rfl⟩) hnd.1
    · cases h2; exact absurd (List.mem_map.mpr ⟨(k, v), h1, rfl⟩) hnd.1
    · exact ih hnd.2 h1 h2

theorem mlookup_eq_none {κ α : Type} [DecidableEq κ] {m : List (κ × α)} {k : κ}
    (h : ∀ p ∈ m, p.1 ≠ k) : mlookup m k = none := by
  induction m with
  | nil => rfl
  | cons p rest ih =>
    obtain ⟨a, b⟩ := p
    have ha : a ≠ k := h (a, b) (List.mem_cons_self _ _)
    simp [ha, ih (fun q hq => h q (List.mem_cons_of_mem _ hq))]

theorem mlookup_merase_ne {κ α : Type} [DecidableEq κ] (m : List (κ × α))
    {k k' : κ} (h : k' ≠ k) : mlookup (merase m k) k' = mlookup m k' := by
  induction m with
  | nil => rfl
  | cons p rest ih =>
    obtain ⟨a, b⟩ := p
    by_cases hak : a = k
    · subst hak
      simp [Ne.symm h]
    · by_cases hak' : a = k' <;> simp [hak, hak', h, ih]

theorem merase_of_mlookup_none {κ α : Type} [DecidableEq κ] {m : List (κ × α)}
    {k : κ} (h : mlookup m k = none) : merase m k = m := by
  induction m with
  | nil => rfl
  | cons p rest ih =>
    obtain ⟨a, b⟩ := p
    by_cases hak : a = k
    · simp [hak] at h
    · simp only [mlookup_cons, if_neg hak] at h
      simp [hak, ih h]

theorem nodupKeys_merase {κ α : Type} [DecidableEq κ] {m : List (κ × α)} (k : κ)
    (hnd : NodupKeys m) : NodupKeys (merase m k) := by
  induction m with
  | nil => exact hnd
  | cons p rest ih =>
    obtain ⟨a, b⟩ := p
    simp only [NodupKeys, List.map_cons, List.nodup_cons] at hnd
    by_cases hak : a = k
    · simpa [hak] using hnd.2
    · have hsub : (merase rest k).map Prod.fst ⊆ rest.map Prod.fst := by
        intro x hx
        rcases List.mem_map.mp hx with ⟨q, hq, hqx⟩
        have hq' : q ∈ rest := by
          clear hx hqx hnd ih
          induction rest with
          | nil => cases hq
          | cons r tail iht =>
            obtain ⟨c, d⟩ := r
            by_cases hck : c = k
            · simp only [merase_cons, if_pos hck] at hq
              exact List.mem_cons_of_mem _ hq
            · simp only [merase_cons, if_neg hck] at hq
              rcases List.mem_cons.mp hq with h1 | h1
              · exact h1 ▸ List.mem_cons_self _ _
              · exact List.mem_cons_of_mem _ (iht h1)
        exact hqx ▸ List.mem_map.mpr ⟨q, hq', rfl⟩
      simp only [merase_cons, if_neg hak, NodupKeys, List.map_cons, List.nodup_cons]
      exact ⟨fun hx => hnd.1 (hsub hx), ih hnd.2⟩

theorem mlookup_merase_self {κ α : Type} [DecidableEq κ] {m : List (κ × α)}
    {k : κ} (hnd : NodupKeys m) : mlookup (merase m k) k = none := by
  induction m with
  | nil => rfl
  | cons p rest ih =>
    obtain ⟨a, b⟩ := p
    simp only [NodupKeys, List.map_cons, List.nodup_cons] at hnd
    by_cases hak : a = k
    · subst hak
      simp only [merase_cons, if_pos rfl]
      exact mlookup_eq_none (fun q hq hqk =>
        hnd.1 (hqk ▸ List.mem_map.mpr ⟨q, hq, rfl⟩))
    · simp [hak, ih hnd.2]

/-! Helper lemmas about the heartbeat sweep. -/

@[simp]
theorem heartbeatSweep_nil (cond : Connection → Bool) (now : ℚ) (mk : Nat → Event) :
    heartbeatSweep cond now mk [] = ([], []) := rfl

theorem heartbeatSweep_cons (cond : Connection → Bool) (now : ℚ) (mk : Nat → Event)
    (cid : Nat) (c : Connection) (rest : List (Nat × Connection)) :
    heartbeatSweep cond now mk ((cid, c) :: rest) =
      if cond c then
        ((cid, { c with last_check_heartbeat := now }) :: (heartbeatSweep cond now mk rest).1,
         mk cid :: (heartbeatSweep cond now mk rest).2)
      else
        ((cid, c) :: (heartbeatSweep cond now mk rest).1,
         (heartbeatSweep cond now mk rest).2) := rfl

theorem heartbeatSweep_mlookup {cond : Connection → Bool} {now : ℚ} {mk : Nat → Event}
    {l : List (Nat × Connection)} {cid : Nat} {c : Connection}
    (hnd : NodupKeys l) (hmem : (cid, c) ∈ l) :
    mlookup (heartbeatSweep cond now mk l).1 cid =
      some (if cond c then { c with last_check_heartbeat := now } else c) := by
  induction l with
  | nil => cases hmem
  | cons p rest ih =>
    obtain ⟨a, b⟩ := p
    simp only [NodupKeys, List.map_cons, List.nodup_cons] at hnd
    rcases List.mem_cons.mp hmem with h1 | h1
    · cases h1
      by_cases hc : cond c <;> simp [heartbeatSweep_cons, hc]
    · have hne : a ≠ cid := fun he => hnd.1 (he ▸ List.mem_map.mpr ⟨(cid, c), h1, rfl⟩)
      by_cases hc : cond b <;>
        simp [heartbeatSweep_cons, hc, hne, ih hnd.2 h1]

theorem heartbeatSweep_event_src {cond : Connection → Bool} {now : ℚ} {mk : Nat → Event}
    {l : List (Nat × Connection)} {x : Nat}
    (hinj : ∀ a b : Nat, mk a = mk b → a = b)
    (hx : mk x ∈ (heartbeatSweep cond now mk l).2) :
    ∃ c, (x, c) ∈ l ∧ cond c = true := by
  induction l with
  | nil => simp at hx
  | cons p rest ih =>
    obtain ⟨a, b⟩ := p
    by_cases hc : cond b
    · rw [heartbeatSweep_cons, if_pos hc] at hx
      rcases List.mem_cons.mp hx with h1 | h1
      · exact ⟨b, (hinj _ _ h1) ▸ List.mem_cons_self _ _, hc⟩
      · rcases ih h1 with ⟨c, hm, hcnd⟩
        exact ⟨c, List.mem_cons_of_mem _ hm, hcnd⟩
    · rw [heartbeatSweep_cons, if_neg hc] at hx
      rcases ih hx with ⟨c, hm, hcnd⟩
      exact ⟨c, List.mem_cons_of_mem _ hm, hcnd⟩

theorem heartbeatSweep_event_of_cond {cond : Connection → Bool} {now : ℚ}
    {mk : Nat → Event} {l : List (Nat × Connection)} {cid : Nat} {c : Connection}
    (hmem : (cid, c) ∈ l) (hc : cond c = true) :
    mk cid ∈ (heartbeatSweep cond now mk l).2 := by
  induction l with
  | nil => cases hmem
  | cons p rest ih =>
    obtain ⟨a, b⟩ := p
    rcases List.mem_cons.mp hmem with h1 | h1
    · cases h1
      rw [heartbeatSweep_cons, if_pos hc]
      exact List.mem_cons_self _ _
    · by_cases hcb : cond b <;>
        · rw [heartbeatSweep_cons]
          simp only [hcb, if_true, if_false, Bool.false_eq_true]
          first
          | exact List.mem_cons_of_mem _ (ih h1)
          | exact ih h1

theorem heartbeatSweep_event_iff {cond : Connection → Bool} {now : ℚ}
    {mk : Nat → Event} {l : List (Nat × Connection)} {cid : Nat} {c : Connection}
    (hinj : ∀ a b : Nat, mk a = mk b → a = b)
    (hnd : NodupKeys l) (hmem : (cid, c) ∈ l) :
    mk cid ∈ (heartbeatSweep cond now mk l).2 ↔ cond c = true := by
  constructor
  · intro hx
    rcases heartbeatSweep_event_src hinj hx with ⟨c', hm, hcnd⟩
    exact mem_eq_of_nodupKeys hnd hm hmem ▸ hcnd
  · exact heartbeatSweep_event_of_cond hmem

/-! Helper lemmas about the close-time cleanup loop. -/

theorem failPending_cons_found {reason : Option Nat} {tid : Nat} {rest : List Nat}
    {table : List (Nat × RespClass)} {rc : RespClass}
    (h : mlookup table tid = some rc) :
    failPending reason (tid :: rest) table =
      ((failPending reason rest (merase table tid)).1,
       Event.setException tid (RpcException.closeReason reason) ::
         (failPending reason rest (merase table tid)).2) := by
  simp [failPending, h]

theorem failPending_cons_missing {reason : Option Nat} {tid : Nat} {rest : List Nat}
    {table : List (Nat × RespClass)} (h : mlookup table tid = none) :
    failPending reason (tid :: rest) table = failPending reason rest table := by
  simp [failPending, h]

theorem failPending_events {reason : Option Nat} {trans : List Nat} :
    ∀ {table : List (Nat × RespClass)}, trans.Nodup →
      (failPending reason trans table).2 =
        (trans.filter (fun t => (mlookup table t).isSome)).map
          (fun tid => Event.setException tid (RpcException.closeReason reason)) := by
  induction trans with
  | nil => intro table _; rfl
  | cons t rest ih =>
    intro table hnd
    simp only [List.nodup_cons] at hnd
    cases htab : mlookup table t with
    | some rc =>
      rw [failPending_cons_found htab]
      have hfil : rest.filter (fun t' => (mlookup (merase table t) t').isSome) =
          rest.filter (fun t' => (mlookup table t').isSome) := by
        apply List.filter_congr
        intro t' ht'
        have hne : t' ≠ t := fun he => hnd.1 (he ▸ ht')
        rw [mlookup_merase_ne table hne]
      rw [ih hnd.2, hfil]
      simp [List.filter_cons, htab]
    | none =>
      rw [failPending_cons_missing htab, ih hnd.2]
      simp [List.filter_cons, htab]

theorem failPending_mlookup_none {reason : Option Nat} {trans : List Nat} :
    ∀ {table : List (Nat × RespClass)} {tid : Nat}, mlookup table tid = none →
      mlookup (failPending reason trans table).1 tid = none := by
  induction trans with
  | nil => intro table tid h; exact h
  | cons t rest ih =>
    intro table tid h
    cases htab : mlookup table t with
    | some rc =>
      rw [failPending_cons_found htab]
      apply ih
      by_cases hte : tid = t
      · subst hte
        rw [merase_of_mlookup_none h]
        exact h
      · rw [mlookup_merase_ne table hte]
        exact h
    | none =>
      rw [failPending_cons_missing htab]
      exact ih h

theorem failPending_consumes {reason : Option Nat} {trans : List Nat} :
    ∀ {table : List (Nat × RespClass)}, NodupKeys table → trans.Nodup →
      ∀ tid ∈ trans, mlookup (failPending reason trans table).1 tid = none := by
  induction trans with
  | nil => intro table _ _ tid h; cases h
  | cons t rest ih =>
    intro table hndT hnd tid hmem
    simp only [List.nodup_cons] at hnd
    rcases List.mem_cons.mp hmem with h1 | h1
    · subst h1
      cases htab : mlookup table tid with
      | some rc =>
        rw [failPending_cons_found htab]
        exact failPending_mlookup_none (mlookup_merase_self hndT)
      | none =>
        rw [failPending_cons_missing htab]
        exact failPending_mlookup_none htab
    · cases htab : mlookup table t with
      | some rc =>
        rw [failPending_cons_found htab]
        exact ih (nodupKeys_merase t hndT) hnd.2 tid h1
      | none =>
        rw [failPending_cons_missing htab]
        exact ih hndT hnd.2 tid h1

/-! Helper lemma about the accept loop. -/

theorem doAcceptAux_le : ∀ (fuel : Nat) (ch : Channel) (socks : List Nat)
    (ch' : Channel) (n : Nat),
    doAcceptAux fuel ch socks = Except.ok (ch', n) → n ≤ fuel := by
  intro fuel
  induction fuel with
  | zero =>
    intro ch socks ch' n h
    simp only [doAcceptAux, Except.ok.injEq, Prod.mk.injEq] at h
    omega
  | succ fuel ih =>
    intro ch socks ch' n h
    by_cases hf : is_full ch
    · simp only [doAcceptAux, if_pos hf, Except.ok.injEq, Prod.mk.injEq] at h
      omega
    · cases socks with
      | nil =>
        simp only [doAcceptAux, if_neg hf, Except.ok.injEq, Prod.mk.injEq] at h
        omega
      | cons cid rest =>
        simp only [doAcceptAux, if_neg hf] at h
        cases hnc : newConnection ch (connFromSock cid) with
        | error e => rw [hnc] at h; cases h
        | ok ch1 =>
          rw [hnc] at h
          dsimp only at h
          cases hrec : doAcceptAux fuel ch1 rest with
          | error e => rw [hrec] at h; cases h
          | ok out =>
            rw [hrec] at h
            simp only [Except.ok.injEq, Prod.mk.injEq] at h
            have := ih ch1 rest out.1 out.2 hrec
            omega

/-- The freshness invariant justifying transmission id allocation: every key
of the pending-results table is below the channel's counter. It holds of the
initial state (the table starts empty, the counter at 1) and is preserved by
every channel operation, since only `callMethod` adds a table entry (the old
counter value, below the bumped counter) and only `recvResponse` /
`connectionClosed` remove entries, never touching the counter. -/
def keysBelow (ch : Channel) : Prop :=
  ∀ p ∈ ch.pending_results, p.1 < ch.transmission_id

theorem keysBelow_mlookup_none {ch : Channel} (h : keysBelow ch) :
    mlookup ch.pending_results ch.transmission_id = none :=
  mlookup_eq_none (fun p hp => Nat.ne_of_lt (h p hp))

theorem mem_setAdd (s : List Nat) (x : Nat) : x ∈ setAdd s x := by
  by_cases h : x ∈ s <;> simp [setAdd, h]

/-- Projection used by witnesses: the event trace of a successful
close / receive operation. -/
def closedEvents (r : Except PyError (Channel × Connection × List Event)) :
    Option (List Event) :=
  match r with
  | Except.ok out => some out.2.2
  | Except.error _ => none

/-- Projection used by witnesses: whether a `callMethod` result is a
success, and its event trace and allocated transmission id if so. -/
def callOutcome
    (r : Except (PyError × List Event) (Channel × Connection × List Event × Option Nat)) :
    Option (List Event × Option Nat) :=
  match r with
  | Except.ok out => some (out.2.2.1, out.2.2.2)
  | Except.error _ => none

/-! The claim theorems and their witnesses. -/

/-- C1: a `CallMethod` invocation whose `response_class` requires a response
(unicast addressing, the only mode compatible with a response) assigns the
current value of the per-channel `transmission_id` counter to the envelope it
sends, bumps the counter by one (so successive assigned ids strictly
increase), and registers an id that is not already a key of the
pending-results table — given the counter-dominates-keys invariant
`keysBelow`, which the call preserves. -/
theorem callMethod_fresh_transmission_id
    (ch : Channel) (sname mname : String) (ctrl : Controller)
    (request : Option Bytes) (response_class : RespClass)
    (hinv : keysBelow ch) (hwide : ctrl.wide = false)
    (hgroup : groupTruthy ctrl.group = false)
    (hresp : response_class.isVoid = false) :
    ∃ ch' conn' md,
      callMethod ch sname mname ctrl request response_class =
        Except.ok (ch', conn', [Event.send ctrl.conn.conn_id md], some ch.transmission_id) ∧
      md.transmission_id = ch.transmission_id ∧
      mlookup ch.pending_results ch.transmission_id = none ∧
      ch'.transmission_id = ch.transmission_id + 1 ∧
      mlookup ch'.pending_results ch.transmission_id = some response_class ∧
      ch.transmission_id ∈ conn'.transmissions ∧
      keysBelow ch' := by
  have hnone := keysBelow_mlookup_none hinv
  refine ⟨{ ch with transmission_id := ch.transmission_id + 1, pending_results := (ch.transmission_id, response_class) :: ch.pending_results },
          { ctrl.conn with transmissions := setAdd ctrl.conn.transmissions ch.transmission_id },
          { ctrl.meta_data with from_stub := true, service_name := sname, method_name := mname, transmission_id := ch.transmission_id, message := request.getD ctrl.meta_data.message },
          ?_, rfl, hnone, rfl, ?_, ?_, ?_⟩
  · simp only [callMethod, addressingEvents, hresp, hwide, hgroup, Bool.not_false,
      Bool.false_or, Bool.false_and, Bool.and_self, if_true, if_false, hnone,
      Option.isSome_none, Bool.false_eq_true, ite_false, ite_true]
  · simp [mlookup]
  · exact mem_setAdd _ _
  · intro p hp
    rcases List.mem_cons.mp hp with h1 | h1
    · simp [h1]
    · exact Nat.lt_trans (hinv p h1) (Nat.lt_succ_self _)

/-- Concrete instances used by the witnesses. -/
def wRespClass : RespClass := { isVoid := false, decode := fun b => b.head? }

def wVoidClass : RespClass := { isVoid := true, decode := fun _ => none }

def wConn : Connection := { conn_id := 7, server_side := false }

def wCtrl : Controller := { meta_data := {}, conn := wConn }

def wChannel : Channel := {}

/-- Witness for C1 at a concrete channel (fresh counter 1, empty table): the
call succeeds and allocates transmission id 1, the counter value. -/
theorem callMethod_fresh_transmission_id_witness :
    (callOutcome (callMethod wChannel "svc" "mth" wCtrl (some [3]) wRespClass)).map Prod.snd =
      some (some wChannel.transmission_id) := by
  obtain ⟨ch', conn', md, heq, -, -, -, -, -, -⟩ :=
    callMethod_fresh_transmission_id wChannel "svc" "mth" wCtrl (some [3]) wRespClass
      (by intro p hp; simp [wChannel] at hp) rfl rfl rfl
  rw [heq]
  rfl

/-- C2: closing a registered connection with `N` outstanding transmission ids
(all present in the pending-results table) removes it from exactly the map
matching its side, fails the `N` corresponding futures with an exception
carrying the close reason, empties the outstanding set, and a second close of
the same connection is a fatal (`assert`) error — so map removal happens
exactly once. -/
theorem connection_closed_fails_outstanding
    (ch : Channel) (conn : Connection) (reason : Option Nat)
    (hreg : (mlookup (if conn.server_side then ch.income_connections else ch.outcome_connections) conn.conn_id).isSome = true)
    (hndm : NodupKeys (if conn.server_side then ch.income_connections else ch.outcome_connections))
    (hndT : NodupKeys ch.pending_results)
    (htrans : conn.transmissions.Nodup)
    (hpend : ∀ tid ∈ conn.transmissions, (mlookup ch.pending_results tid).isSome = true) :
    ∃ ch' conn',
      connectionClosed ch conn reason =
        Except.ok (ch', conn',
          conn.transmissions.map (fun tid => Event.setException tid (RpcException.closeReason reason))) ∧
      (conn.server_side = true →
         ch'.income_connections = merase ch.income_connections conn.conn_id ∧
         ch'.outcome_connections = ch.outcome_connections) ∧
      (conn.server_side = false →
         ch'.outcome_connections = merase ch.outcome_connections conn.conn_id ∧
         ch'.income_connections = ch.income_connections) ∧
      conn'.transmissions = [] ∧
      (∀ tid ∈ conn.transmissions, mlookup ch'.pending_results tid = none) ∧
      (∃ e, connectionClosed ch' conn' reason = Except.error e) := by
  have hfil : conn.transmissions.filter (fun t => (mlookup ch.pending_results t).isSome) = conn.transmissions :=
    List.filter_eq_self.mpr hpend
  cases hsv : conn.server_side with
  | true =>
    rw [if_pos (by rw [hsv] : conn.server_side = true)] at hreg hndm
    refine ⟨{ ch with income_connections := merase ch.income_connections conn.conn_id, pending_results := (failPending reason conn.transmissions ch.pending_results).1 },
            { conn with transmissions := [] }, ?_, fun _ => ⟨rfl, rfl⟩, fun hf => Bool.noConfusion hf, rfl, ?_, ?_⟩
    · simp only [connectionClosed, hsv, if_true, hreg, ite_true]
      rw [failPending_events htrans, hfil]
    · intro tid h
      exact failPending_consumes hndT htrans tid h
    · refine ⟨PyError.assertionError "conn_id not in income_connections", ?_⟩
      have hnone : mlookup (merase ch.income_connections conn.conn_id) conn.conn_id = none :=
        mlookup_merase_self hndm
      simp [connectionClosed, hsv, hnone]
  | false =>
    rw [if_neg (by rw [hsv]; exact Bool.false_ne_true : ¬conn.server_side = true)] at hreg hndm
    refine ⟨{ ch with outcome_connections := merase ch.outcome_connections conn.conn_id, pending_results := (failPending reason conn.transmissions ch.pending_results).1 },
            { conn with transmissions := [] }, ?_, fun ht => Bool.noConfusion ht, fun _ => ⟨rfl, rfl⟩, rfl, ?_, ?_⟩
    · simp only [connectionClosed, hsv, Bool.false_eq_true, if_false, hreg, ite_true]
      rw [failPending_events htrans, hfil]
    · intro tid h
      exact failPending_consumes hndT htrans tid h
    · refine ⟨PyError.assertionError "conn_id not in outcome_connections", ?_⟩
      have hnone : mlookup (merase ch.outcome_connections conn.conn_id) conn.conn_id = none :=
        mlookup_merase_self hndm
      simp [connectionClosed, hsv, hnone]

/-- Concrete channel for the C2 witness: a self-initiated connection with two
outstanding calls, both pending. -/
def wConnC2 : Connection := { conn_id := 4, server_side := false, transmissions := [2, 3] }

def wChannelC2 : Channel :=
  { transmission_id := 5,
    pending_results := [(2, wRespClass), (3, wRespClass)],
    outcome_connections := [(4, wConnC2)] }

/-- Witness for C2: closing the connection with outstanding ids 2 and 3
fails exactly those two futures with the close reason. -/
theorem connection_closed_fails_outstanding_witness :
    closedEvents (connectionClosed wChannelC2 wConnC2 (some 9)) =
      some [Event.setException 2 (RpcException.closeReason (some 9)),
            Event.setException 3 (RpcException.closeReason (some 9))] := by
  obtain ⟨ch', conn', heq, -, -, -, -, -⟩ :=
    connection_closed_fails_outstanding wChannelC2 wConnC2 (some 9)
      (by decide) (by unfold NodupKeys; decide) (by unfold NodupKeys; decide)
      (by decide) (by decide)
  rw [heq]
  rfl

/-- C10: `connection_closed` never fails because of an outstanding
transmission_id that is absent from the pending-results table — the table
lookup uses a pop with a default, so such ids are silently skipped.
`set_exception` fires exactly for the outstanding ids actually present in the
table, and each table entry is consumed at most once (the event list has no
duplicates). -/
theorem connection_closed_skips_missing
    (ch : Channel) (conn : Connection) (reason : Option Nat)
    (hreg : (mlookup (if conn.server_side then ch.income_connections else ch.outcome_connections) conn.conn_id).isSome = true)
    (htrans : conn.transmissions.Nodup) :
    ∃ ch' conn',
      connectionClosed ch conn reason =
        Except.ok (ch', conn',
          (conn.transmissions.filter (fun t => (mlookup ch.pending_results t).isSome)).map
            (fun tid => Event.setException tid (RpcException.closeReason reason))) ∧
      ((conn.transmissions.filter (fun t => (mlookup ch.pending_results t).isSome)).map
          (fun tid => Event.setException tid (RpcException.closeReason reason))).Nodup ∧
      conn'.transmissions = [] := by
  have hnodupEv : ((conn.transmissions.filter (fun t => (mlookup ch.pending_results t).isSome)).map
      (fun tid => Event.setException tid (RpcException.closeReason reason))).Nodup := by
    refine List.Nodup.map ?_ (htrans.filter _)
    intro a b hab
    simpa using hab
  cases hsv : conn.server_side with
  | true =>
    rw [if_pos (by rw [hsv] : conn.server_side = true)] at hreg
    refine ⟨{ ch with income_connections := merase ch.income_connections conn.conn_id, pending_results := (failPending reason conn.transmissions ch.pending_results).1 },
            { conn with transmissions := [] }, ?_, hnodupEv, rfl⟩
    simp only [connectionClosed, hsv, if_true, hreg, ite_true]
    rw [failPending_events htrans]
  | false =>
    rw [if_neg (by rw [hsv]; exact Bool.false_ne_true : ¬conn.server_side = true)] at hreg
    refine ⟨{ ch with outcome_connections := merase ch.outcome_connections conn.conn_id, pending_results := (failPending reason conn.transmissions ch.pending_results).1 },
            { conn with transmissions := [] }, ?_, hnodupEv, rfl⟩
    simp only [connectionClosed, hsv, Bool.false_eq_true, if_false, hreg, ite_true]
    rw [failPending_events htrans]

/-- Concrete channel for the C10 witness: outstanding ids `[2, 9]` but only
`2` still pending in the table. -/
def wConnC10 : Connection := { conn_id := 4, server_side := false, transmissions := [2, 9] }

def wChannelC10 : Channel :=
  { transmission_id := 10,
    pending_results := [(2, wRespClass)],
    outcome_connections := [(4, wConnC10)] }

/-- Witness for C10: the outstanding id `9` missing from the table is
skipped without an error and only the future of id `2` is failed. -/
theorem connection_closed_skips_missing_witness :
    closedEvents (connectionClosed wChannelC10 wConnC10 none) =
      some [Event.setException 2 (RpcException.closeReason none)] := by
  obtain ⟨ch', conn', heq, -, -⟩ :=
    connection_closed_skips_missing wChannelC10 wConnC10 none (by decide) (by decide)
  rw [heq]
  rfl

/-- C3: for an inbound response, a transmission_id absent from the
pending-results table or from the receiving connection's outstanding set is a
fatal (`assert`) error that terminates that connection's receive loop;
otherwise the entry is removed from both (and only that entry), and the
future is resolved along exactly one path — failure flag set: an error
reconstructed through the error-code registry from the decoded error
payload; response decode failure: the decode error; otherwise the decoded
response value. -/
theorem recv_response_resolution
    (get_by_code : Nat → Nat) (pem : Bytes → ErrorMessage)
    (ch : Channel) (ctrl : Controller)
    (hnd : NodupKeys ch.pending_results) :
    (mlookup ch.pending_results ctrl.meta_data.transmission_id = none →
       recvResponse get_by_code pem ch ctrl =
         Except.error (PyError.assertionError "transmission_id not pending")) ∧
    (ctrl.meta_data.transmission_id ∉ ctrl.conn.transmissions →
       (mlookup ch.pending_results ctrl.meta_data.transmission_id).isSome = true →
       recvResponse get_by_code pem ch ctrl =
         Except.error (PyError.assertionError "transmission_id not in connection transmissions")) ∧
    (∀ rc, mlookup ch.pending_results ctrl.meta_data.transmission_id = some rc →
       ctrl.meta_data.transmission_id ∈ ctrl.conn.transmissions →
       ∃ ch' conn' ev,
         recvResponse get_by_code pem ch ctrl = Except.ok (ch', conn', [ev]) ∧
         mlookup ch'.pending_results ctrl.meta_data.transmission_id = none ∧
         ctrl.meta_data.transmission_id ∉ conn'.transmissions ∧
         (∀ t, t ≠ ctrl.meta_data.transmission_id →
            mlookup ch'.pending_results t = mlookup ch.pending_results t) ∧
         (∀ t, t ≠ ctrl.meta_data.transmission_id →
            (t ∈ conn'.transmissions ↔ t ∈ ctrl.conn.transmissions)) ∧
         (ctrl.failed = true →
            ev = Event.setException ctrl.meta_data.transmission_id
              (RpcException.reconstructed (get_by_code (pem ctrl.meta_data.message).error_code)
                (pem ctrl.meta_data.message).error_message)) ∧
         (ctrl.failed = false → rc.decode ctrl.meta_data.message = none →
            ev = Event.setException ctrl.meta_data.transmission_id RpcException.decodeFailure) ∧
         (ctrl.failed = false → ∀ v, rc.decode ctrl.meta_data.message = some v →
            ev = Event.setValue ctrl.meta_data.transmission_id v)) := by
  refine ⟨?_, ?_, ?_⟩
  · intro hnone
    simp [recvResponse, hnone]
  · intro hmem hsome
    rcases Option.isSome_iff_exists.mp hsome with ⟨rc, hrc⟩
    simp [recvResponse, hrc, hmem]
  · intro rc hrc hmem
    have hremoved : mlookup (merase ch.pending_results ctrl.meta_data.transmission_id)
        ctrl.meta_data.transmission_id = none := mlookup_merase_self hnd
    cases hfl : ctrl.failed with
    | true =>
      refine ⟨{ ch with pending_results := merase ch.pending_results ctrl.meta_data.transmission_id },
              { ctrl.conn with transmissions := ctrl.conn.transmissions.filter (· ≠ ctrl.meta_data.transmission_id) },
              Event.setException ctrl.meta_data.transmission_id (RpcException.reconstructed (get_by_code (pem ctrl.meta_data.message).error_code) (pem ctrl.meta_data.message).error_message),
              ?_, hremoved, ?_, ?_, ?_, fun _ => rfl, fun hc => Bool.noConfusion hc, fun hc => Bool.noConfusion hc⟩
      · simp [recvResponse, hrc, hmem, hfl]
      · simp
      · intro t ht
        exact mlookup_merase_ne ch.pending_results ht
      · intro t ht
        simp [ht]
    | false =>
      cases hdec : rc.decode ctrl.meta_data.message with
      | none =>
        refine ⟨{ ch with pending_results := merase ch.pending_results ctrl.meta_data.transmission_id },
                { ctrl.conn with transmissions := ctrl.conn.transmissions.filter (· ≠ ctrl.meta_data.transmission_id) },
                Event.setException ctrl.meta_data.transmission_id RpcException.decodeFailure,
                ?_, hremoved, ?_, ?_, ?_, fun hc => Bool.noConfusion hc, fun _ _ => rfl, ?_⟩
        · simp [recvResponse, hrc, hmem, hfl, hdec]
        · simp
        · intro t ht
          exact mlookup_merase_ne ch.pending_results ht
        · intro t ht
          simp [ht]
        · intro _ v hv
          cases hv
      | some v =>
        refine ⟨{ ch with pending_results := merase ch.pending_results ctrl.meta_data.transmission_id },
                { ctrl.conn with transmissions := ctrl.conn.transmissions.filter (· ≠ ctrl.meta_data.transmission_id) },
                Event.setValue ctrl.meta_data.transmission_id v,
                ?_, hremoved, ?_, ?_, ?_, fun hc => Bool.noConfusion hc, ?_, ?_⟩
        · simp [recvResponse, hrc, hmem, hfl, hdec]
        · simp
        · intro t ht
          exact mlookup_merase_ne ch.pending_results ht
        · intro t ht
          simp [ht]
        · intro _ hn
          cases hn
        · intro _ v' hv'
          cases hv'
          rfl

/-- Concrete collaborators and states for the C3 witness. -/
def wRegistry : Nat → Nat := fun c => c + 100

def wParseEM : Bytes → ErrorMessage := fun b => { error_code := b.headD 0, error_message := b }

def wConnC3 : Connection := { conn_id := 1, server_side := false, transmissions := [2] }

def wCtrlC3 : Controller := { meta_data := { transmission_id := 2, message := [5] }, conn := wConnC3 }

def wChannelC3 : Channel := { transmission_id := 3, pending_results := [(2, wRespClass)] }

/-- Witness for C3 on the success path: transmission id 2 is pending and
outstanding, the failure flag is clear, decoding succeeds, so the future is
resolved with the decoded value 5. -/
theorem recv_response_resolution_witness :
    closedEvents (recvResponse wRegistry wParseEM wChannelC3 wCtrlC3) =
      some [Event.setValue 2 5] := by
  obtain ⟨ch', conn', ev, heq, -, -, -, -, -, -, hval⟩ :=
    (recv_response_resolution wRegistry wParseEM wChannelC3 wCtrlC3
        (by unfold NodupKeys; decide)).2.2 wRespClass rfl (by decide)
  have hev : ev = Event.setValue 2 5 := hval rfl 5 rfl
  rw [heq, hev]
  rfl

/-- C4: a `CallMethod` with broadcast (`wide`) or group addressing whose
response class requires a response is rejected by the `assert` preceding the
send loop, so the error carries an empty event trace: no packet is sent on
any income connection. -/
theorem call_method_rejects_wide_response
    (ch : Channel) (sname mname : String) (ctrl : Controller)
    (request : Option Bytes) (response_class : RespClass)
    (haddr : ctrl.wide = true ∨ groupTruthy ctrl.group = true)
    (hresp : response_class.isVoid = false) :
    callMethod ch sname mname ctrl request response_class =
      Except.error (PyError.assertionError "broadcast requires no response", []) := by
  rcases haddr with h | h <;> simp [callMethod, h, hresp]

def wCtrlWide : Controller := { meta_data := {}, conn := wConn, wide := true }

/-- Witness for C4: a broadcast call expecting a response errors with no
sends. -/
theorem call_method_rejects_wide_response_witness :
    callMethod wChannel "svc" "mth" wCtrlWide none wRespClass =
      Except.error (PyError.assertionError "broadcast requires no response", []) :=
  call_method_rejects_wide_response wChannel "svc" "mth" wCtrlWide none wRespClass
    (Or.inl rfl) rfl

/-- C5: on a liveness-detection tick at time `now`, a server-accepted
connection is marked timed out (its `last_check_heartbeat` set to `now` and
its timeout handler invoked) if and only if the elapsed time since its last
check is at least `heartbeat_interval * 1.1 + 0.3`; with interval 1 the
threshold is exactly `1.4`. -/
theorem server_heartbeat_threshold
    (ch : Channel) (now : ℚ) (cid : Nat) (c : Connection)
    (hnd : NodupKeys ch.income_connections)
    (hmem : (cid, c) ∈ ch.income_connections) :
    (Event.heartbeatTimeout cid ∈ (serverHeartbeat ch now).2 ↔
       now - c.last_check_heartbeat ≥ ch.heartbeat_interval * 1.1 + 0.3) ∧
    mlookup (serverHeartbeat ch now).1.income_connections cid =
      some (if now - c.last_check_heartbeat ≥ ch.heartbeat_interval * 1.1 + 0.3 then
              { c with last_check_heartbeat := now } else c) ∧
    (ch.heartbeat_interval = 1 →
       (now - c.last_check_heartbeat ≥ ch.heartbeat_interval * 1.1 + 0.3 ↔
        now - c.last_check_heartbeat ≥ 1.4)) := by
  have hinj : ∀ a b : Nat, Event.heartbeatTimeout a = Event.heartbeatTimeout b → a = b := by
    intro a b h
    cases h
    rfl
  refine ⟨?_, ?_, ?_⟩
  · have h := @heartbeatSweep_event_iff (serverTimedOut ch now) now
      Event.heartbeatTimeout ch.income_connections cid c hinj hnd hmem
    simpa [serverHeartbeat, serverTimedOut] using h
  · have h := @heartbeatSweep_mlookup (serverTimedOut ch now) now
      Event.heartbeatTimeout ch.income_connections cid c hnd hmem
    simp only [serverHeartbeat] at h ⊢
    rw [h]
    simp [serverTimedOut]
  · intro h1
    rw [h1]
    norm_num

def wConnHb : Connection :=
  { conn_id := 1, server_side := true, last_check_heartbeat := 0, heartbeat_interval := 1 }

def wChannelC5 : Channel := { heartbeat_interval := 1, income_connections := [(1, wConnHb)] }

/-- Witness for C5 at interval 1 and a tick at time 1.4: the connection is
timed out exactly at the 1.4 threshold (its handler fires and its timestamp
is updated). -/
theorem server_heartbeat_threshold_witness :
    Event.heartbeatTimeout 1 ∈ (serverHeartbeat wChannelC5 1.4).2 ∧
    mlookup (serverHeartbeat wChannelC5 1.4).1.income_connections 1 =
      some { wConnHb with last_check_heartbeat := 1.4 } := by
  obtain ⟨hiff, hlook, -⟩ :=
    server_heartbeat_threshold wChannelC5 1.4 1 wConnHb (by unfold NodupKeys; decide) (by decide)
  have hcond : (1.4 : ℚ) - wConnHb.last_check_heartbeat ≥
      wChannelC5.heartbeat_interval * 1.1 + 0.3 := by
    show (1.4 : ℚ) - 0 ≥ 1 * 1.1 + 0.3
    norm_num
  refine ⟨hiff.mpr hcond, ?_⟩
  rw [hlook, if_pos hcond]

/-- C6: on a keep-alive tick at time `now`, a self-initiated connection gets
a heartbeat notification (and its timestamp updated) if and only if its
heartbeat is enabled and the elapsed time since its last check is at least
its own `heartbeat_interval * factor`, with `factor = 0.64` when the
channel's total connection count (income plus outcome) is at least 14142 and
`0.89` otherwise. -/
theorem peer_heartbeat_threshold
    (ch : Channel) (now : ℚ) (cid : Nat) (c : Connection)
    (hnd : NodupKeys ch.outcome_connections)
    (hmem : (cid, c) ∈ ch.outcome_connections) :
    (Event.notifyHeartbeat cid ∈ (peerHeartbeat ch now).2 ↔
       (c.need_heartbeat = true ∧
        now - c.last_check_heartbeat ≥
          c.heartbeat_interval * (if size ch ≥ 14142 then (0.64 : ℚ) else 0.89))) ∧
    mlookup (peerHeartbeat ch now).1.outcome_connections cid =
      some (if c.need_heartbeat = true ∧
              now - c.last_check_heartbeat ≥
                c.heartbeat_interval * (if size ch ≥ 14142 then (0.64 : ℚ) else 0.89)
            then { c with last_check_heartbeat := now } else c) ∧
    (size ch ≥ 14142 → peerFactor ch = 0.64) ∧
    (size ch < 14142 → peerFactor ch = 0.89) := by
  have hinj : ∀ a b : Nat, Event.notifyHeartbeat a = Event.notifyHeartbeat b → a = b := by
    intro a b h
    cases h
    rfl
  refine ⟨?_, ?_, ?_, ?_⟩
  · have h := @heartbeatSweep_event_iff (peerDue ch now) now
      Event.notifyHeartbeat ch.outcome_connections cid c hinj hnd hmem
    simpa [peerHeartbeat, peerDue, peerFactor, Bool.and_eq_true] using h
  · have h := @heartbeatSweep_mlookup (peerDue ch now) now
      Event.notifyHeartbeat ch.outcome_connections cid c hnd hmem
    simp only [peerHeartbeat] at h ⊢
    rw [h]
    simp [peerDue, peerFactor, Bool.and_eq_true]
  · intro h
    simp [peerFactor, h]
  · intro h
    simp [peerFactor, Nat.not_le.mpr h]

def wConnC6 : Connection :=
  { conn_id := 2, server_side := false, last_check_heartbeat := 0,
    heartbeat_interval := 1, need_heartbeat := true }

def wChannelC6 : Channel := { outcome_connections := [(2, wConnC6)] }

/-- Witness for C6 at a light-load channel (one connection, so factor 0.89)
and a tick at time 0.89: the notification fires exactly at the 0.89
threshold. -/
theorem peer_heartbeat_threshold_witness :
    Event.notifyHeartbeat 2 ∈ (peerHeartbeat wChannelC6 0.89).2 ∧
    mlookup (peerHeartbeat wChannelC6 0.89).1.outcome_connections 2 =
      some { wConnC6 with last_check_heartbeat := 0.89 } ∧
    peerFactor wChannelC6 = 0.89 := by
  obtain ⟨hiff, hlook, -, hfac⟩ :=
    peer_heartbeat_threshold wChannelC6 0.89 2 wConnC6 (by unfold NodupKeys; decide) (by decide)
  have hsize : size wChannelC6 < 14142 := by decide
  have hcond : wConnC6.need_heartbeat = true ∧
      (0.89 : ℚ) - wConnC6.last_check_heartbeat ≥
        wConnC6.heartbeat_interval * (if size wChannelC6 ≥ 14142 then (0.64 : ℚ) else 0.89) := by
    refine ⟨rfl, ?_⟩
    rw [if_neg (Nat.not_le.mpr hsize)]
    show (0.89 : ℚ) - 0 ≥ 1 * 0.89
    norm_num
  exact ⟨hiff.mpr hcond, by rw [hlook, if_pos hcond], hfac hsize⟩

theorem doAcceptAux_full {ch : Channel} {socks : List Nat}
    (hf : is_full ch = true) :
    ∀ {fuel : Nat}, 0 < fuel → doAcceptAux fuel ch socks = Except.ok (ch, 0) := by
  intro fuel hpos
  cases fuel with
  | zero => cases hpos
  | succ f => simp [doAcceptAux, hf]

/-- C7: one wakeup of the accept watcher accepts at most `MAX_ACCEPT = 1024`
connections, accepts none (returning the state untouched) whenever `is_full`
holds, and `is_full` holds exactly when the income (server-accepted)
connection count is at least `MAX_CONCURRENCY = 50000`. -/
theorem do_accept_bounded (ch : Channel) (socks : List Nat) :
    (∀ ch' n, doAccept ch socks = Except.ok (ch', n) → n ≤ 1024) ∧
    (is_full ch = true → doAccept ch socks = Except.ok (ch, 0)) ∧
    (is_full ch = true ↔ ch.income_connections.length ≥ 50000) := by
  refine ⟨?_, ?_, ?_⟩
  · intro ch' n h
    have := doAcceptAux_le MAX_ACCEPT ch socks ch' n h
    simpa [MAX_ACCEPT] using this
  · intro hf
    exact doAcceptAux_full hf (by simp [MAX_ACCEPT])
  · simp [is_full, MAX_CONCURRENCY]

def wFullChannel : Channel := { income_connections := List.replicate 50000 (0, wConn) }

/-- Witness for C7: a channel at the admission ceiling accepts nothing. -/
theorem do_accept_bounded_witness :
    is_full wFullChannel = true ∧
    doAccept wFullChannel [3] = Except.ok (wFullChannel, 0) := by
  have hf : is_full wFullChannel = true := by
    unfold is_full MAX_CONCURRENCY
    rw [show wFullChannel.income_connections = List.replicate 50000 (0, wConn) from rfl,
        List.length_replicate]
    rfl
  exact ⟨hf, (do_accept_bounded wFullChannel [3]).2.1 hf⟩

/-- C8: registering a service whose full name is already present is a fatal
(`assert`) error (the operation aborts, returning no new registry), a fresh
name extends the registry by exactly that entry, and registering a connection
whose conn_id already exists in the map matching its side is a fatal
invariant violation. -/
theorem duplicate_registration_fatal
    (ch : Channel) (service : Service) (conn : Connection) :
    ((mlookup ch.services service.full_name).isSome = true →
       appendService ch service =
         Except.error (PyError.assertionError "service already registered")) ∧
    ((mlookup ch.services service.full_name).isSome = false →
       ∃ ch', appendService ch service = Except.ok ch' ∧
         mlookup ch'.services service.full_name = some service ∧
         ∀ n, n ≠ service.full_name → mlookup ch'.services n = mlookup ch.services n) ∧
    (conn.server_side = true →
       (mlookup ch.income_connections conn.conn_id).isSome = true →
       newConnection ch conn =
         Except.error (PyError.assertionError "conn_id already in income_connections")) ∧
    (conn.server_side = false →
       (mlookup ch.outcome_connections conn.conn_id).isSome = true →
       newConnection ch conn =
         Except.error (PyError.assertionError "conn_id already in outcome_connections")) := by
  refine ⟨?_, ?_, ?_, ?_⟩
  · intro hdup
    simp [appendService, hdup]
  · intro hfresh
    refine ⟨{ ch with services := (service.full_name, service) :: ch.services }, ?_, ?_, ?_⟩
    · simp [appendService, hfresh]
    · simp [mlookup]
    · intro n hn
      simp [mlookup, Ne.symm hn]
  · intro hs hdup
    simp [newConnection, hs, hdup]
  · intro hs hdup
    simp [newConnection, hs, hdup]

def wService : Service := { full_name := "pkg.Svc" }

def wChannelC8 : Channel :=
  { services := [("pkg.Svc", wService)],
    income_connections := [(3, { conn_id := 3, server_side := true })] }

/-- Witness for C8: re-registering the service and reusing conn_id 3 both
error. -/
theorem duplicate_registration_fatal_witness :
    appendService wChannelC8 wService =
      Except.error (PyError.assertionError "service already registered") ∧
    newConnection wChannelC8 { conn_id := 3, server_side := true } =
      Except.error (PyError.assertionError "conn_id already in income_connections") :=
  ⟨(duplicate_registration_fatal wChannelC8 wService { conn_id := 3, server_side := true }).1
      (by decide),
   (duplicate_registration_fatal wChannelC8 wService { conn_id := 3, server_side := true }).2.2.1
      rfl (by decide)⟩

/-- C9 counterexample: supplying both a bound connection and `wide = true`
through the rpc wrapper is not rejected — the wrapper silently selects the
connection (unicast) mode. -/
theorem rpc_multi_mode_not_rejected :
    rpcSelectMode (some wConn) true (some [3, 4]) =
      Except.ok (AddressingMode.unicast wConn) := rfl

/-- C9 (amended): the rpc wrapper rejects a call supplying no addressing
mode; when one or more modes are supplied it sets exactly one mode on the
controller, chosen silently by fixed priority — a bound connection over
`wide` over `group` — rather than rejecting multi-mode calls. -/
theorem rpc_mode_priority :
    (∀ g, groupTruthy g = false →
       rpcSelectMode none false g =
         Except.error (PyError.assertionError "must specified one way to go")) ∧
    (∀ c w g, rpcSelectMode (some c) w g = Except.ok (AddressingMode.unicast c)) ∧
    (∀ g, rpcSelectMode none true g = Except.ok AddressingMode.wide) ∧
    (∀ ids, ids ≠ [] →
       rpcSelectMode none false (some ids) = Except.ok (AddressingMode.group ids)) := by
  refine ⟨?_, ?_, ?_, ?_⟩
  · intro g hg
    simp [rpcSelectMode, hg]
  · intro c w g
    simp [rpcSelectMode]
  · intro g
    simp [rpcSelectMode]
  · intro ids h
    have hne : ids.isEmpty = false := by
      simp [List.isEmpty_iff, h]
    simp [rpcSelectMode, groupTruthy, hne]

/-- Witness for the amended C9: the no-mode call is rejected. -/
theorem rpc_mode_priority_witness :
    rpcSelectMode none false none =
      Except.error (PyError.assertionError "must specified one way to go") :=
  rpc_mode_priority.1 none rfl

end Pymaid
